import Mathlib

/-!
Verification of the LinearColorSmoothing engine
(src/include/hyperhdrbase/LinearColorSmoothing.h).

The repository ships only the class declaration; inline bodies present in
the header (`enabled`, `pause`, the `SmoothingCfg` record and its default
constructor values) are embedded from the source, and every member whose
body is missing from the repository is modelled from the specification, following its
description of its behaviour (each such definition carries a doc comment
starting `Modelled from the spec:`).

Machine integers (`int64_t`, `int32_t`, `unsigned`) are modelled as `Int`
and `Nat`: none of the verified operations can overflow 64-bit arithmetic
on the inputs considered, and `uint8_t` channel values are `Nat` kept in
range by the saturating `clamp`.
-/

namespace HyperHdr

/-- An RGB triple, one per LED; channels are `uint8_t` in the source,
modelled as `Nat` with range 0..255 maintained by `clamp`. -/
structure ColorRgb where
  red : Nat
  green : Nat
  blue : Nat
deriving DecidableEq

/-- `enum class SmoothingType { Linear = 0, Alternative = 1 }` from the header. -/
inductive SmoothingType where
  | Linear
  | Alternative
deriving DecidableEq

/-- The `SmoothingCfg` record from the header (fields as declared). -/
structure SmoothingCfg where
  _pause : Bool
  _settlingTime : Int
  _updateInterval : Int
  _directMode : Bool
  _type : SmoothingType
  _antiFlickeringTreshold : Int
  _antiFlickeringStep : Int
  _antiFlickeringTimeout : Int
deriving DecidableEq

/-- The default `SmoothingCfg()` constructor values from the header:
pause=false, settlingTime=200, updateInterval=25, directMode=false,
type=Linear, anti-flicker parameters 0. -/
instance : Inhabited SmoothingCfg :=
  ⟨⟨false, 200, 25, false, SmoothingType.Linear, 0, 0, 0⟩⟩

/-- The mutable engine state: the fields of `LinearColorSmoothing`
relevant to the verified behaviour, as declared in the header.
`_lastWritten` carries the per-channel `lastWrittenValue` of the spec used by the
anti-flicker pass (the source keeps it inside `_previousValues`; the spec
separates the interpolation snapshot from the last written value, and we
follow the spec since the member bodies are not in the repository).
`_previousTimeouts` holds one timestamp per channel, the time the channel
last changed. -/
structure EngineState where
  _updateInterval : Int
  _settlingTime : Int
  _targetValues : List ColorRgb
  _previousValues : List ColorRgb
  _previousTimeouts : List Int
  _lastWritten : List Nat
  _continuousOutput : Bool
  _antiFlickeringTreshold : Int
  _antiFlickeringStep : Int
  _antiFlickeringTimeout : Int
  _flushFrame : Bool
  _targetTime : Int
  _previousTime : Int
  _pause : Bool
  _cfgList : List SmoothingCfg
  _currentConfigId : Nat
  _enabled : Bool
  _directMode : Bool
  _smoothingType : SmoothingType
  _timerWatchdog : Int
  _outputQueue : List (List ColorRgb)
deriving DecidableEq

/-- Modelled from the spec: saturating arithmetic — clamp an `int` to the
valid `uint8_t` channel range 0..255 (header: `uint8_t clamp(int x)`). -/
def clamp (x : Int) : Nat := (min 255 (max 0 x)).toNat

/-- `bool enabled() const { return _enabled && !_pause; }` (body in the header). -/
def enabled (s : EngineState) : Bool := s._enabled && !s._pause

/-- `bool pause() const { return _pause; }` (body in the header). -/
def pause (s : EngineState) : Bool := s._pause

/-- Modelled from the spec: `setEnable` sets the explicit enable flag of the
engine runtime state (body of `setEnable` is not in the repository). -/
def setEnable (s : EngineState) (enable : Bool) : EngineState :=
  { s with _enabled := enable }

/-- Modelled from the spec: the interpolation fraction of the current
transition window at wall-clock time `now`:
`clamp((now − previousTimestamp) / (targetTimestamp − previousTimestamp), 0, 1)`,
and 1 when the two timestamps coincide. -/
def fraction (s : EngineState) (now : Int) : ℚ :=
  if s._targetTime = s._previousTime then 1
  else max 0 (min 1 (((now : ℚ) - (s._previousTime : ℚ)) /
    ((s._targetTime : ℚ) - (s._previousTime : ℚ))))

/-- Modelled from the spec: one channel of the linear interpolation,
`round(previous + fraction × (target − previous))` clamped to the channel
range. -/
def interpCh (p t : Nat) (f : ℚ) : Nat :=
  clamp (round ((p : ℚ) + f * ((t : ℚ) - (p : ℚ))))

/-- Modelled from the spec: linear interpolation of the three channels of one LED. -/
def interpColor (f : ℚ) (p t : ColorRgb) : ColorRgb :=
  ⟨interpCh p.red t.red f, interpCh p.green t.green f, interpCh p.blue t.blue f⟩

/-- Modelled from the spec: the instantaneous interpolated frame derived
from the timing state at time `now` (the `LinearSmoothing` computation). -/
def interpolatedFrame (s : EngineState) (now : Int) : List ColorRgb :=
  List.zipWith (interpColor (fraction s now)) s._previousValues s._targetValues

/-- Modelled from the spec: `LinearSetup` re-bases the transition on a new
target frame — the currently-interpolated instantaneous color becomes the
new previous frame (the submitted values themselves on the very first
accepted frame, which first populates the timing state), the submitted
values become the target, and the window is `[now, now + settlingTime]`. -/
def LinearSetup (s : EngineState) (ledValues : List ColorRgb) (now : Int) : EngineState :=
  { s with
    _previousValues := if s._targetValues = [] then ledValues else interpolatedFrame s now,
    _targetValues := ledValues,
    _previousTime := now,
    _targetTime := now + s._settlingTime }

/-- Modelled from the spec: the watchdog counter value restored on every
accepted frame (the exact count is implementation-defined telemetry). -/
def watchdogResetTicks : Int := 10

/-- Modelled from the spec: `updateLedValues` — frame intake. A frame whose
length mismatches the established length is rejected with a negative result
and no state change; while disabled or paused the call is accepted and
dropped; in direct mode the frame is queued for immediate write on the next
tick, bypassing interpolation; otherwise `LinearSetup` re-bases the
transition. Every accepted frame resets the watchdog. -/
def updateLedValues (s : EngineState) (ledValues : List ColorRgb) (now : Int) :
    Int × EngineState :=
  if s._targetValues ≠ [] ∧ ledValues.length ≠ s._targetValues.length then (-1, s)
  else if enabled s = false then (0, s)
  else if s._directMode = true then
    (0, { s with _targetValues := ledValues, _timerWatchdog := watchdogResetTicks })
  else (0, { LinearSetup s ledValues now with _timerWatchdog := watchdogResetTicks })

/-- Modelled from the spec: the frame computed by one tick — the queued
frame itself in direct mode, the interpolated frame otherwise. -/
def tickFrame (s : EngineState) (now : Int) : List ColorRgb :=
  if s._directMode then s._targetValues else interpolatedFrame s now

/-- Modelled from the spec: the anti-flicker decision for one channel.
`delta` is the interpolated value minus the last written value. Below the
threshold and within the timeout the last written value is held; below the
threshold with the timeout elapsed the change is applied with its magnitude
capped at `step`; at or above the threshold the interpolated value passes
through unmodified. -/
def antiflickerCh (threshold step timeout : Int) (interp lastWritten : Nat)
    (lastChange now : Int) : Nat :=
  let delta : Int := (interp : Int) - (lastWritten : Int)
  if |delta| < threshold then
    if now - lastChange < timeout then lastWritten
    else clamp ((lastWritten : Int) +
      (if 0 ≤ delta then min delta step else -(min (-delta) step)))
  else interp

/-- The channels of a frame flattened to one sequence (3 per LED). -/
def frameChannels (f : List ColorRgb) : List Nat :=
  f.flatMap (fun c => [c.red, c.green, c.blue])

/-- Pointwise combination of three lists, truncating at the shortest. -/
def zipWith3 (g : α → β → γ → δ) : List α → List β → List γ → List δ
  | a :: as, b :: bs, c :: cs => g a b c :: zipWith3 g as bs cs
  | _, _, _ => []

/-- Modelled from the spec: the per-channel values handed to the sink by one
tick — the channels of the computed frame, passed through the anti-flicker filter
when it is active (`antiFlickerThreshold > 0`) and interpolation is in use. -/
def writtenChannels (s : EngineState) (now : Int) : List Nat :=
  let interp := frameChannels (tickFrame s now)
  if 0 < s._antiFlickeringTreshold ∧ s._directMode = false then
    zipWith3
      (fun i lw lc => antiflickerCh s._antiFlickeringTreshold s._antiFlickeringStep
        s._antiFlickeringTimeout i lw lc now)
      interp s._lastWritten s._previousTimeouts
  else interp

/-- Modelled from the spec: the state change of one tick. A tick never
alters the timing state; it records the written channel values, refreshes
the last-change timestamp of each changed channel, and decrements the watchdog. -/
def tickUpdate (s : EngineState) (now : Int) : EngineState :=
  let w := writtenChannels s now
  { s with
    _lastWritten := w,
    _previousTimeouts :=
      zipWith3 (fun nw lw lc => if nw ≠ lw then now else lc) w s._lastWritten
        s._previousTimeouts,
    _timerWatchdog := s._timerWatchdog - 1 }

/-- A sequence of ticks at the given times, with no new submission between. -/
def applyTicks (s : EngineState) (times : List Int) : EngineState :=
  times.foldl tickUpdate s

/-- Modelled from the spec: `addConfig` converts the update frequency to a
tick interval (`intervalMs = round(1000 / freq)`), appends a new
`SmoothingCfg` with default anti-flicker parameters, and returns its index. -/
def addConfig (s : EngineState) (settlingTime_ms : Int) (ledUpdateFrequency_hz : ℚ)
    (directMode : Bool) : Nat × EngineState :=
  let interval : Int := round ((1000 : ℚ) / ledUpdateFrequency_hz)
  (s._cfgList.length,
   { s with _cfgList := s._cfgList ++
      [⟨false, settlingTime_ms, interval, directMode, SmoothingType.Linear, 0, 0, 0⟩] })

/-- Modelled from the spec: `updateConfig` — find-or-create keyed by the
registry index: an existing entry is overwritten in place and its id
returned; a missing id behaves as `addConfig` and returns the new index. -/
def updateConfig (s : EngineState) (cfgID : Nat) (settlingTime_ms : Int)
    (ledUpdateFrequency_hz : ℚ) (directMode : Bool) : Nat × EngineState :=
  let c : SmoothingCfg :=
    ⟨false, settlingTime_ms, round ((1000 : ℚ) / ledUpdateFrequency_hz), directMode,
      SmoothingType.Linear, 0, 0, 0⟩
  if cfgID < s._cfgList.length then
    (cfgID, { s with _cfgList := s._cfgList.set cfgID c })
  else addConfig s settlingTime_ms ledUpdateFrequency_hz directMode

/-- Modelled from the spec: activating the registry entry at index `i`
copies its fields into the engine runtime state and records `i` as the
active configuration id. -/
def applyCfg (s : EngineState) (i : Nat) : EngineState :=
  let c := s._cfgList.getD i default
  { s with
    _settlingTime := c._settlingTime,
    _updateInterval := c._updateInterval,
    _directMode := c._directMode,
    _pause := c._pause,
    _smoothingType := c._type,
    _antiFlickeringTreshold := c._antiFlickeringTreshold,
    _antiFlickeringStep := c._antiFlickeringStep,
    _antiFlickeringTimeout := c._antiFlickeringTimeout,
    _currentConfigId := i }

/-- Modelled from the spec: `selectConfig` — selecting the already-active id
without force is a no-op returning true; an out-of-bounds id activates the
fallback entry 0 and returns false; a valid id activates that entry and
returns true. -/
def selectConfig (s : EngineState) (cfg : Nat) (force : Bool) : Bool × EngineState :=
  if s._currentConfigId = cfg ∧ force = false then (true, s)
  else if cfg < s._cfgList.length then (true, applyCfg s cfg)
  else (false, applyCfg s 0)

/-- Modelled from the spec: `handleSettingsUpdate` re-derives configuration 0
from the new settings via `updateConfig 0` and, when configuration 0 is
currently active, re-applies it with `selectConfig 0 force=true`. -/
def handleSettingsUpdate (s : EngineState) (settlingTime_ms : Int)
    (ledUpdateFrequency_hz : ℚ) (directMode : Bool) : EngineState :=
  let s1 := (updateConfig s 0 settlingTime_ms ledUpdateFrequency_hz directMode).2
  if s1._currentConfigId = 0 then (selectConfig s1 0 true).2 else s1

/-- Modelled from the spec: engine construction — the registry is created
with entry 0 derived from the initial settings; the timing state stays
empty until the first accepted frame. -/
def mkEngine (settlingTime_ms : Int) (intervalMs : Int) : EngineState :=
  { _updateInterval := intervalMs
    _settlingTime := settlingTime_ms
    _targetValues := []
    _previousValues := []
    _previousTimeouts := []
    _lastWritten := []
    _continuousOutput := false
    _antiFlickeringTreshold := 0
    _antiFlickeringStep := 0
    _antiFlickeringTimeout := 0
    _flushFrame := false
    _targetTime := 0
    _previousTime := 0
    _pause := false
    _cfgList := [⟨false, settlingTime_ms, intervalMs, false, SmoothingType.Linear, 0, 0, 0⟩]
    _currentConfigId := 0
    _enabled := false
    _directMode := false
    _smoothingType := SmoothingType.Linear
    _timerWatchdog := watchdogResetTicks
    _outputQueue := [] }

/-- Every channel of the frame is within the `uint8_t` range. -/
def ValidFrame (f : List ColorRgb) : Prop :=
  ∀ c ∈ f, c.red ≤ 255 ∧ c.green ≤ 255 ∧ c.blue ≤ 255

instance (f : List ColorRgb) : Decidable (ValidFrame f) :=
  List.decidableBAll _ f

/-- A sample engine: constructed with the default settings (settling 200 ms,
tick interval 25 ms) and enabled. -/
def sampleEngine : EngineState := setEnable (mkEngine 200 25) true

/-- A sample frame of one LED. -/
def sampleFrame : List ColorRgb := [⟨10, 20, 30⟩]

/-- A second sample frame of one LED. -/
def sampleFrame2 : List ColorRgb := [⟨200, 0, 0⟩]

/-- The sample engine mid-transition: one accepted frame at time 0. -/
def sampleEngine1 : EngineState := (updateLedValues sampleEngine sampleFrame 0).2

/-- The sample engine switched to direct mode. -/
def sampleDirect : EngineState := { sampleEngine with _directMode := true }

/-! ### Supporting lemmas -/

theorem clamp_of_le (t : Nat) (h : t ≤ 255) : clamp (t : Int) = t := by
  unfold clamp
  omega

theorem interpCh_one (p t : Nat) (h : t ≤ 255) : interpCh p t 1 = t := by
  have harg : ((p : ℚ) + 1 * ((t : ℚ) - (p : ℚ))) = (t : ℚ) := by ring
  rw [interpCh, harg, round_natCast, clamp_of_le t h]

theorem interpColor_one (p t : ColorRgb)
    (h : t.red ≤ 255 ∧ t.green ≤ 255 ∧ t.blue ≤ 255) : interpColor 1 p t = t := by
  unfold interpColor
  rw [interpCh_one _ _ h.1, interpCh_one _ _ h.2.1, interpCh_one _ _ h.2.2]

theorem zipWith_interpColor_one (P F : List ColorRgb) (h : F.length ≤ P.length)
    (hv : ValidFrame F) : List.zipWith (interpColor 1) P F = F := by
  induction F generalizing P with
  | nil => simp
  | cons f fs ih =>
    cases P with
    | nil => simp at h
    | cons p ps =>
      simp only [List.zipWith_cons_cons]
      rw [interpColor_one p f (hv f (List.mem_cons_self f fs)),
        ih ps (by simpa using h) (fun c hc => hv c (List.mem_cons_of_mem f hc))]

theorem fraction_nonneg (s : EngineState) (now : Int) : 0 ≤ fraction s now := by
  unfold fraction
  split
  · norm_num
  · exact le_max_left 0 _

theorem fraction_le_one (s : EngineState) (now : Int) : fraction s now ≤ 1 := by
  unfold fraction
  split
  · exact le_refl 1
  · exact max_le (by norm_num) (min_le_left 1 _)

theorem fraction_eq_one (s : EngineState) (now : Int)
    (hinv : s._previousTime ≤ s._targetTime) (h : s._targetTime ≤ now) :
    fraction s now = 1 := by
  unfold fraction
  split
  · rfl
  · rename_i hne
    have hlt : s._previousTime < s._targetTime :=
      lt_of_le_of_ne hinv (fun e => hne e.symm)
    have hd : (0 : ℚ) < (s._targetTime : ℚ) - (s._previousTime : ℚ) := by
      have := sub_pos.mpr hlt
      exact_mod_cast this
    have h1 : (1 : ℚ) ≤ ((now : ℚ) - (s._previousTime : ℚ)) /
        ((s._targetTime : ℚ) - (s._previousTime : ℚ)) := by
      refine (one_le_div hd).mpr ?_
      have : (s._targetTime : ℚ) ≤ (now : ℚ) := by exact_mod_cast h
      linarith
    rw [min_eq_left h1, max_eq_right zero_le_one]

theorem fraction_mono (s : EngineState) (now1 now2 : Int)
    (hinv : s._previousTime ≤ s._targetTime) (h12 : now1 ≤ now2) :
    fraction s now1 ≤ fraction s now2 := by
  unfold fraction
  split
  · exact le_refl 1
  · rename_i hne
    have hlt : s._previousTime < s._targetTime :=
      lt_of_le_of_ne hinv (fun e => hne e.symm)
    have hd : (0 : ℚ) < (s._targetTime : ℚ) - (s._previousTime : ℚ) := by
      have := sub_pos.mpr hlt
      exact_mod_cast this
    have hnum : ((now1 : ℚ) - (s._previousTime : ℚ)) ≤
        ((now2 : ℚ) - (s._previousTime : ℚ)) := by
      have : (now1 : ℚ) ≤ (now2 : ℚ) := by exact_mod_cast h12
      linarith
    have hdiv : ((now1 : ℚ) - (s._previousTime : ℚ)) /
        ((s._targetTime : ℚ) - (s._previousTime : ℚ)) ≤
        ((now2 : ℚ) - (s._previousTime : ℚ)) /
        ((s._targetTime : ℚ) - (s._previousTime : ℚ)) := by gcongr
    exact max_le_max (le_refl 0) (min_le_min (le_refl 1) hdiv)

theorem tickUpdate_tickFrame (s : EngineState) (t now : Int) :
    tickFrame (tickUpdate s t) now = tickFrame s now := rfl

theorem applyTicks_tickFrame (s : EngineState) (ts : List Int) (now : Int) :
    tickFrame (applyTicks s ts) now = tickFrame s now := by
  induction ts generalizing s with
  | nil => rfl
  | cons t ts ih =>
    rw [applyTicks, List.foldl_cons]
    exact (ih (tickUpdate s t)).trans (tickUpdate_tickFrame s t now)

theorem applyTicks_targetTime (s : EngineState) (ts : List Int) :
    (applyTicks s ts)._targetTime = s._targetTime := by
  induction ts generalizing s with
  | nil => rfl
  | cons t ts ih =>
    rw [applyTicks, List.foldl_cons]
    exact ih (tickUpdate s t)

theorem tickFrame_settled (s1 : EngineState) (now : Int)
    (hdm : s1._directMode = false)
    (hinv : s1._previousTime ≤ s1._targetTime) (hnow : s1._targetTime ≤ now)
    (hlen : s1._targetValues.length ≤ s1._previousValues.length)
    (hv : ValidFrame s1._targetValues) :
    tickFrame s1 now = s1._targetValues := by
  rw [tickFrame, if_neg (by simp [hdm]), interpolatedFrame,
    fraction_eq_one s1 now hinv hnow]
  exact zipWith_interpColor_one _ _ hlen hv


/-! ### Claims -/

/-- C1: for every valid-length frame F submitted while the engine is
enabled, not paused and not in direct mode, once settlingTimeMs has elapsed
since the frame was accepted (the interpolation fraction is 1), the frame
computed by the next tick equals F exactly, channel for channel, and
remains equal to F on every subsequent tick with no new submission. -/
theorem C1_settling_convergence (s : EngineState) (F : List ColorRgb) (t0 : Int)
    (hen : s._enabled = true) (hp : s._pause = false) (hd : s._directMode = false)
    (hlen : s._targetValues = [] ∨ F.length = s._targetValues.length)
    (hplen : s._targetValues.length ≤ s._previousValues.length)
    (hv : ValidFrame F) (hst : 0 ≤ s._settlingTime) :
    (updateLedValues s F t0).1 = 0 ∧
    ∀ (ts : List Int) (now : Int), ((updateLedValues s F t0).2)._targetTime ≤ now →
      tickFrame (applyTicks ((updateLedValues s F t0).2) ts) now = F := by
  have hcond : ¬(s._targetValues ≠ [] ∧ F.length ≠ s._targetValues.length) := by
    rcases hlen with h | h
    · exact fun hc => hc.1 h
    · exact fun hc => hc.2 h
  have hena : ¬(enabled s = false) := by simp [enabled, hen, hp]
  have hdm : ¬(s._directMode = true) := by simp [hd]
  have heq : updateLedValues s F t0 =
      (0, { LinearSetup s F t0 with _timerWatchdog := watchdogResetTicks }) := by
    rw [updateLedValues, if_neg hcond, if_neg hena, if_neg hdm]
  rw [heq]
  refine ⟨rfl, ?_⟩
  intro ts now hnow
  rw [applyTicks_tickFrame]
  have e1 : ({ LinearSetup s F t0 with
      _timerWatchdog := watchdogResetTicks } : EngineState)._directMode = false := hd
  have e2 : ({ LinearSetup s F t0 with
      _timerWatchdog := watchdogResetTicks } : EngineState)._previousTime = t0 := rfl
  have e3 : ({ LinearSetup s F t0 with
      _timerWatchdog := watchdogResetTicks } : EngineState)._targetTime =
      t0 + s._settlingTime := rfl
  have e4 : ({ LinearSetup s F t0 with
      _timerWatchdog := watchdogResetTicks } : EngineState)._targetValues = F := rfl
  have e5 : ({ LinearSetup s F t0 with
      _timerWatchdog := watchdogResetTicks } : EngineState)._previousValues =
      if s._targetValues = [] then F else interpolatedFrame s t0 := rfl
  have hlen1 : ({ LinearSetup s F t0 with
      _timerWatchdog := watchdogResetTicks } : EngineState)._targetValues.length ≤
      ({ LinearSetup s F t0 with
      _timerWatchdog := watchdogResetTicks } : EngineState)._previousValues.length := by
    rw [e4, e5]
    by_cases he : s._targetValues = []
    · rw [if_pos he]
    · rw [if_neg he]
      have hf : F.length = s._targetValues.length := hlen.resolve_left he
      rw [interpolatedFrame, List.length_zipWith, hf]
      exact le_min hplen (le_refl _)
  have := tickFrame_settled ({ LinearSetup s F t0 with
      _timerWatchdog := watchdogResetTicks } : EngineState) now e1
    (by rw [e2, e3]; omega) (by rw [e3]; exact e3 ▸ hnow) hlen1 (e4 ▸ hv)
  rw [this, e4]

/-- Witness for C1: the sample engine accepts a first frame at time 0 and
from time 200 on every tick computes exactly that frame. -/
theorem C1_settling_convergence_witness :
    (updateLedValues sampleEngine sampleFrame 0).1 = 0 ∧
    ∀ (ts : List Int) (now : Int),
      ((updateLedValues sampleEngine sampleFrame 0).2)._targetTime ≤ now →
      tickFrame (applyTicks ((updateLedValues sampleEngine sampleFrame 0).2) ts) now =
        sampleFrame :=
  C1_settling_convergence sampleEngine sampleFrame 0 (by decide) (by decide) (by decide)
    (Or.inl (by decide)) (by decide) (by decide) (by decide)

/-- C2: a frame accepted while a non-direct interpolation is in progress
re-bases the transition: the new previous frame is the instantaneous color
interpolated from the existing timing state at call time, the new target
frame is the submitted values, the previous timestamp becomes the call time
and the target timestamp the call time plus settlingTimeMs. -/
theorem C2_rebase (s : EngineState) (F : List ColorRgb) (t0 : Int)
    (hen : s._enabled = true) (hp : s._pause = false) (hd : s._directMode = false)
    (hne : s._targetValues ≠ []) (hlen : F.length = s._targetValues.length) :
    ((updateLedValues s F t0).2)._previousValues = interpolatedFrame s t0 ∧
    ((updateLedValues s F t0).2)._targetValues = F ∧
    ((updateLedValues s F t0).2)._previousTime = t0 ∧
    ((updateLedValues s F t0).2)._targetTime = t0 + s._settlingTime := by
  have hcond : ¬(s._targetValues ≠ [] ∧ F.length ≠ s._targetValues.length) :=
    fun hc => hc.2 hlen
  have hena : ¬(enabled s = false) := by simp [enabled, hen, hp]
  have hdm : ¬(s._directMode = true) := by simp [hd]
  have heq : updateLedValues s F t0 =
      (0, { LinearSetup s F t0 with _timerWatchdog := watchdogResetTicks }) := by
    rw [updateLedValues, if_neg hcond, if_neg hena, if_neg hdm]
  rw [heq]
  refine ⟨?_, rfl, rfl, rfl⟩
  show (if s._targetValues = [] then F else interpolatedFrame s t0) = interpolatedFrame s t0
  rw [if_neg hne]

/-- Witness for C2: the second sample frame, submitted at time 25 while the
first transition is under way, re-bases the window to [25, 225]. -/
theorem C2_rebase_witness :
    ((updateLedValues sampleEngine1 sampleFrame2 25).2)._previousValues =
      interpolatedFrame sampleEngine1 25 ∧
    ((updateLedValues sampleEngine1 sampleFrame2 25).2)._targetValues = sampleFrame2 ∧
    ((updateLedValues sampleEngine1 sampleFrame2 25).2)._previousTime = 25 ∧
    ((updateLedValues sampleEngine1 sampleFrame2 25).2)._targetTime =
      25 + sampleEngine1._settlingTime :=
  C2_rebase sampleEngine1 sampleFrame2 25 (by decide) (by decide) (by decide)
    (by decide) (by decide)

/-- C3: the anti-flicker decision for a channel with delta = interpolated
minus last written value: below the threshold and within the timeout the
written value is held; below the threshold with the timeout elapsed the
change is applied with magnitude capped at antiFlickerStep; at or above the
threshold the interpolated value passes through unmodified. -/
theorem C3_antiflicker (threshold step timeout : Int) (interp lastWritten : Nat)
    (lastChange now : Int)
    (hi : interp ≤ 255) (hl : lastWritten ≤ 255) (hstep : 0 ≤ step) :
    (|(interp : Int) - (lastWritten : Int)| < threshold →
      now - lastChange < timeout →
      antiflickerCh threshold step timeout interp lastWritten lastChange now = lastWritten) ∧
    (|(interp : Int) - (lastWritten : Int)| < threshold →
      timeout ≤ now - lastChange →
      |(antiflickerCh threshold step timeout interp lastWritten lastChange now : Int) -
        (lastWritten : Int)| = min |(interp : Int) - (lastWritten : Int)| step) ∧
    (threshold ≤ |(interp : Int) - (lastWritten : Int)| →
      antiflickerCh threshold step timeout interp lastWritten lastChange now = interp) := by
  refine ⟨?_, ?_, ?_⟩
  · intro h1 h2
    simp only [antiflickerCh]
    rw [if_pos h1, if_pos h2]
  · intro h1 h2
    simp only [antiflickerCh]
    rw [if_pos h1, if_neg (not_lt.mpr h2)]
    rcases le_or_lt 0 ((interp : Int) - (lastWritten : Int)) with hd0 | hd0
    · rw [if_pos hd0, abs_of_nonneg hd0]
      have hm : 0 ≤ min ((interp : Int) - (lastWritten : Int)) step := le_min hd0 hstep
      have hm1 : min ((interp : Int) - (lastWritten : Int)) step ≤
          (interp : Int) - (lastWritten : Int) := min_le_left _ _
      have hcl : ((clamp ((lastWritten : Int) +
          min ((interp : Int) - (lastWritten : Int)) step) : Nat) : Int) =
          (lastWritten : Int) + min ((interp : Int) - (lastWritten : Int)) step := by
        unfold clamp
        omega
      rw [hcl, add_sub_cancel_left, abs_of_nonneg hm]
    · rw [if_neg (not_le.mpr hd0), abs_of_neg hd0]
      have hm : 0 ≤ min (-((interp : Int) - (lastWritten : Int))) step :=
        le_min (by omega) hstep
      have hm1 : min (-((interp : Int) - (lastWritten : Int))) step ≤
          -((interp : Int) - (lastWritten : Int)) := min_le_left _ _
      have hcl : ((clamp ((lastWritten : Int) +
          -(min (-((interp : Int) - (lastWritten : Int))) step)) : Nat) : Int) =
          (lastWritten : Int) + -(min (-((interp : Int) - (lastWritten : Int))) step) := by
        unfold clamp
        omega
      rw [hcl]
      have harr : (lastWritten : Int) +
          -(min (-((interp : Int) - (lastWritten : Int))) step) - (lastWritten : Int) =
          -(min (-((interp : Int) - (lastWritten : Int))) step) := by ring
      rw [harr, abs_neg, abs_of_nonneg hm]
  · intro h3
    simp only [antiflickerCh]
    rw [if_neg (not_lt.mpr h3)]

/-- Witness for C3 at threshold 10, step 2, timeout 100, interpolated 15,
last written 12. -/
theorem C3_antiflicker_witness :
    (|(15 : Int) - (12 : Int)| < 10 → (50 : Int) - 0 < 100 →
      antiflickerCh 10 2 100 15 12 0 50 = 12) ∧
    (|(15 : Int) - (12 : Int)| < 10 → (100 : Int) ≤ 50 - 0 →
      |(antiflickerCh 10 2 100 15 12 0 50 : Int) - (12 : Int)| =
        min |(15 : Int) - (12 : Int)| 2) ∧
    ((10 : Int) ≤ |(15 : Int) - (12 : Int)| →
      antiflickerCh 10 2 100 15 12 0 50 = 15) :=
  C3_antiflicker 10 2 100 15 12 0 50 (by decide) (by decide) (by decide)

/-- C4: selectConfig with an out-of-bounds id activates index 0 and returns
false; with an in-bounds id (other than a forceless reselection of the
active id) it copies the fields of that entry into the runtime state and
returns true; reselecting the active id without force returns true with no
side effects. -/
theorem C4_selectConfig (s : EngineState) (id : Nat) (force : Bool)
    (hcur : s._currentConfigId < s._cfgList.length) :
    (s._cfgList.length ≤ id →
      (selectConfig s id force).1 = false ∧
      (selectConfig s id force).2._currentConfigId = 0 ∧
      (selectConfig s id force).2._settlingTime =
        (s._cfgList.getD 0 default)._settlingTime ∧
      (selectConfig s id force).2._updateInterval =
        (s._cfgList.getD 0 default)._updateInterval ∧
      (selectConfig s id force).2._directMode =
        (s._cfgList.getD 0 default)._directMode) ∧
    (id < s._cfgList.length → (s._currentConfigId = id → force = true) →
      (selectConfig s id force).1 = true ∧
      (selectConfig s id force).2._currentConfigId = id ∧
      (selectConfig s id force).2._settlingTime =
        (s._cfgList.getD id default)._settlingTime ∧
      (selectConfig s id force).2._updateInterval =
        (s._cfgList.getD id default)._updateInterval ∧
      (selectConfig s id force).2._directMode =
        (s._cfgList.getD id default)._directMode ∧
      (selectConfig s id force).2._pause =
        (s._cfgList.getD id default)._pause) ∧
    (s._currentConfigId = id → force = false → selectConfig s id force = (true, s)) := by
  refine ⟨?_, ?_, ?_⟩
  · intro hge
    have hne : ¬(s._currentConfigId = id ∧ force = false) := by
      rintro ⟨he, -⟩
      rw [he] at hcur
      omega
    have hnlt : ¬(id < s._cfgList.length) := by omega
    rw [selectConfig, if_neg hne, if_neg hnlt]
    exact ⟨rfl, rfl, rfl, rfl, rfl⟩
  · intro hlt hforce
    have hne : ¬(s._currentConfigId = id ∧ force = false) := by
      rintro ⟨he, hf⟩
      rw [hforce he] at hf
      cases hf
    rw [selectConfig, if_neg hne, if_pos hlt]
    exact ⟨rfl, rfl, rfl, rfl, rfl, rfl⟩
  · intro he hf
    rw [selectConfig, if_pos ⟨he, hf⟩]

/-- Witness for C4 at the sample engine whose registry holds one entry. -/
theorem C4_selectConfig_witness :
    ((sampleEngine._cfgList.length ≤ 7 →
      (selectConfig sampleEngine 7 false).1 = false ∧
      (selectConfig sampleEngine 7 false).2._currentConfigId = 0 ∧
      (selectConfig sampleEngine 7 false).2._settlingTime =
        (sampleEngine._cfgList.getD 0 default)._settlingTime ∧
      (selectConfig sampleEngine 7 false).2._updateInterval =
        (sampleEngine._cfgList.getD 0 default)._updateInterval ∧
      (selectConfig sampleEngine 7 false).2._directMode =
        (sampleEngine._cfgList.getD 0 default)._directMode) ∧
    (7 < sampleEngine._cfgList.length →
      (sampleEngine._currentConfigId = 7 → false = true) →
      (selectConfig sampleEngine 7 false).1 = true ∧
      (selectConfig sampleEngine 7 false).2._currentConfigId = 7 ∧
      (selectConfig sampleEngine 7 false).2._settlingTime =
        (sampleEngine._cfgList.getD 7 default)._settlingTime ∧
      (selectConfig sampleEngine 7 false).2._updateInterval =
        (sampleEngine._cfgList.getD 7 default)._updateInterval ∧
      (selectConfig sampleEngine 7 false).2._directMode =
        (sampleEngine._cfgList.getD 7 default)._directMode ∧
      (selectConfig sampleEngine 7 false).2._pause =
        (sampleEngine._cfgList.getD 7 default)._pause) ∧
    (sampleEngine._currentConfigId = 7 → false = false →
      selectConfig sampleEngine 7 false = (true, sampleEngine))) :=
  C4_selectConfig sampleEngine 7 false (by decide)

/-- C5, counterexample to the claim as stated: starting from a freshly
constructed engine (registry size 1), two updateConfig calls with the same
out-of-range cfgId 5 both append — the second call changes the registry
size, so "calling updateConfig twice with the same cfgId and any parameters
leaves the registry size unchanged by the second call" fails. -/
theorem C5_counterexample :
    ¬(((updateConfig (updateConfig (mkEngine 200 25) 5 100 25 false).2
        5 100 25 false).2)._cfgList.length =
      ((updateConfig (mkEngine 200 25) 5 100 25 false).2)._cfgList.length) := by
  decide

/-- C5 as amended: updateConfig overwrites an existing entry in place and
returns cfgId, otherwise appends and returns the new index (the old size);
the registry size is unchanged by the second of two calls with the same
cfgId provided cfgId does not exceed the registry size before the first
call. -/
theorem C5_updateConfig (s : EngineState) (cfgID : Nat) (a a2 : Int) (f f2 : ℚ)
    (d d2 : Bool) :
    (cfgID < s._cfgList.length →
      (updateConfig s cfgID a f d).1 = cfgID ∧
      (updateConfig s cfgID a f d).2._cfgList.length = s._cfgList.length) ∧
    (s._cfgList.length ≤ cfgID →
      (updateConfig s cfgID a f d).1 = s._cfgList.length ∧
      (updateConfig s cfgID a f d).2._cfgList.length = s._cfgList.length + 1) ∧
    (cfgID ≤ s._cfgList.length →
      ((updateConfig (updateConfig s cfgID a f d).2 cfgID a2 f2 d2).2)._cfgList.length =
        ((updateConfig s cfgID a f d).2)._cfgList.length) := by
  refine ⟨?_, ?_, ?_⟩
  · intro hlt
    rw [updateConfig, if_pos hlt]
    exact ⟨rfl, by simp [List.length_set]⟩
  · intro hge
    rw [updateConfig, if_neg (by omega), addConfig]
    exact ⟨rfl, by simp⟩
  · intro hle
    have hsecond : cfgID < (updateConfig s cfgID a f d).2._cfgList.length := by
      rw [updateConfig]
      by_cases hlt : cfgID < s._cfgList.length
      · rw [if_pos hlt]
        simpa [List.length_set] using hlt
      · rw [if_neg hlt, addConfig]
        simp only [List.length_append, List.length_cons, List.length_nil]
        omega
    have hlen2 : ∀ s2 : EngineState, cfgID < s2._cfgList.length →
        (updateConfig s2 cfgID a2 f2 d2).2._cfgList.length = s2._cfgList.length := by
      intro s2 h2
      rw [updateConfig, if_pos h2]
      simp [List.length_set]
    exact hlen2 _ hsecond

/-- C6: on every tick the interpolation fraction is the elapsed time over
the window length clamped to [0,1]; it is 1 when the window is empty
(guarding the division by zero), and it is monotonically non-decreasing in
time within one transition window. -/
theorem C6_fraction_clamped (s : EngineState) (now now1 now2 : Int)
    (hinv : s._previousTime ≤ s._targetTime) :
    0 ≤ fraction s now ∧ fraction s now ≤ 1 ∧
    (s._targetTime = s._previousTime → fraction s now = 1) ∧
    (now1 ≤ now2 → fraction s now1 ≤ fraction s now2) := by
  refine ⟨fraction_nonneg s now, fraction_le_one s now, ?_,
    fun h12 => fraction_mono s now1 now2 hinv h12⟩
  intro h
  rw [fraction, if_pos h]

/-- Witness for C6 on the sample engine mid-transition (window [0, 200]). -/
theorem C6_fraction_clamped_witness :
    0 ≤ fraction sampleEngine1 50 ∧ fraction sampleEngine1 50 ≤ 1 ∧
    (sampleEngine1._targetTime = sampleEngine1._previousTime →
      fraction sampleEngine1 50 = 1) ∧
    ((10 : Int) ≤ 20 → fraction sampleEngine1 10 ≤ fraction sampleEngine1 20) :=
  C6_fraction_clamped sampleEngine1 50 10 20 (by decide)

/-- C7: with direct mode active, the frame computed by any tick following an
accepted submission equals the submitted frame exactly, independent of the
prior interpolation state. -/
theorem C7_direct_mode (s : EngineState) (F : List ColorRgb) (t0 now : Int)
    (hen : s._enabled = true) (hp : s._pause = false) (hd : s._directMode = true)
    (hlen : s._targetValues = [] ∨ F.length = s._targetValues.length) :
    (updateLedValues s F t0).1 = 0 ∧
    tickFrame ((updateLedValues s F t0).2) now = F := by
  have hcond : ¬(s._targetValues ≠ [] ∧ F.length ≠ s._targetValues.length) := by
    rcases hlen with h | h
    · exact fun hc => hc.1 h
    · exact fun hc => hc.2 h
  have hena : ¬(enabled s = false) := by simp [enabled, hen, hp]
  have heq : updateLedValues s F t0 =
      (0, { s with _targetValues := F, _timerWatchdog := watchdogResetTicks }) := by
    rw [updateLedValues, if_neg hcond, if_neg hena, if_pos hd]
  rw [heq]
  exact ⟨rfl, by simp [tickFrame, hd]⟩

/-- Witness for C7: the direct-mode sample engine forwards the submitted
frame unmodified on the next tick. -/
theorem C7_direct_mode_witness :
    (updateLedValues sampleDirect sampleFrame2 0).1 = 0 ∧
    tickFrame ((updateLedValues sampleDirect sampleFrame2 0).2) 1 = sampleFrame2 :=
  C7_direct_mode sampleDirect sampleFrame2 0 1 (by decide) (by decide) (by decide)
    (Or.inl (by decide))

/-- C8: a submission whose length differs from the established frame length
is rejected with a negative result and the whole engine state unchanged; a
valid-length submission returns zero. -/
theorem C8_invalid_length (s : EngineState) (F : List ColorRgb) (now : Int) :
    (s._targetValues ≠ [] → F.length ≠ s._targetValues.length →
      updateLedValues s F now = (-1, s)) ∧
    ((s._targetValues = [] ∨ F.length = s._targetValues.length) →
      (updateLedValues s F now).1 = 0) := by
  constructor
  · intro h1 h2
    rw [updateLedValues, if_pos ⟨h1, h2⟩]
  · intro h
    have hcond : ¬(s._targetValues ≠ [] ∧ F.length ≠ s._targetValues.length) := by
      rcases h with h | h
      · exact fun hc => hc.1 h
      · exact fun hc => hc.2 h
    rw [updateLedValues, if_neg hcond]
    by_cases h2 : enabled s = false
    · rw [if_pos h2]
    · rw [if_neg h2]
      by_cases h3 : s._directMode = true
      · rw [if_pos h3]
      · rw [if_neg h3]

/-- Appending a configuration grows the registry by exactly one entry. -/
theorem addConfig_cfgList_length (s : EngineState) (a : Int) (f : ℚ) (d : Bool) :
    (addConfig s a f d).2._cfgList.length = s._cfgList.length + 1 := by
  rw [addConfig]
  simp

/-- updateConfig never shrinks the registry. -/
theorem updateConfig_cfgList_length (s : EngineState) (i : Nat) (a : Int) (f : ℚ)
    (d : Bool) : s._cfgList.length ≤ (updateConfig s i a f d).2._cfgList.length := by
  rw [updateConfig]
  by_cases hlt : i < s._cfgList.length
  · rw [if_pos hlt]
    simp [List.length_set]
  · rw [if_neg hlt]
    rw [show ((addConfig s a f d).2._cfgList.length = s._cfgList.length + 1) from
      addConfig_cfgList_length s a f d]
    omega

/-- selectConfig leaves the registry itself untouched. -/
theorem selectConfig_cfgList (s : EngineState) (i : Nat) (force : Bool) :
    (selectConfig s i force).2._cfgList = s._cfgList := by
  rw [selectConfig]
  split_ifs <;> rfl

/-- C9: the registry always holds an entry at index 0 — it is nonempty at
construction and no public operation (addConfig, updateConfig, selectConfig,
handleSettingsUpdate) ever empties it, so the selectConfig fallback is
always available. -/
theorem C9_registry_entry0 (s : EngineState) (st iv a : Int) (f : ℚ) (i : Nat)
    (d force : Bool) (h : 0 < s._cfgList.length) :
    0 < (mkEngine st iv)._cfgList.length ∧
    0 < (addConfig s a f d).2._cfgList.length ∧
    0 < (updateConfig s i a f d).2._cfgList.length ∧
    0 < (selectConfig s i force).2._cfgList.length ∧
    0 < (handleSettingsUpdate s a f d)._cfgList.length := by
  refine ⟨by simp [mkEngine], ?_, ?_, ?_, ?_⟩
  · rw [addConfig_cfgList_length]
    omega
  · exact lt_of_lt_of_le h (updateConfig_cfgList_length s i a f d)
  · rw [selectConfig_cfgList]
    exact h
  · rw [handleSettingsUpdate]
    by_cases hc : (updateConfig s 0 a f d).2._currentConfigId = 0
    · rw [if_pos hc, selectConfig_cfgList]
      exact lt_of_lt_of_le h (updateConfig_cfgList_length s 0 a f d)
    · rw [if_neg hc]
      exact lt_of_lt_of_le h (updateConfig_cfgList_length s 0 a f d)

/-- Witness for C9 at a freshly constructed engine. -/
theorem C9_registry_entry0_witness :
    0 < (mkEngine 300 20)._cfgList.length ∧
    0 < (addConfig (mkEngine 200 25) 150 40 true).2._cfgList.length ∧
    0 < (updateConfig (mkEngine 200 25) 2 150 40 true).2._cfgList.length ∧
    0 < (selectConfig (mkEngine 200 25) 2 false).2._cfgList.length ∧
    0 < (handleSettingsUpdate (mkEngine 200 25) 150 40 true)._cfgList.length :=
  C9_registry_entry0 (mkEngine 200 25) 300 20 150 40 2 true false (by decide)

/-- C10: enabled() returns true exactly when the explicit enable flag is set
and the pause flag is clear; an engine enabled via setEnable(true) while
paused reports enabled() = false, and pause() reports the pause flag alone. -/
theorem C10_enabled_pause (s : EngineState) :
    enabled s = (s._enabled && !s._pause) ∧
    (enabled s = true ↔ s._enabled = true ∧ s._pause = false) ∧
    pause s = s._pause ∧
    (setEnable s true)._enabled = true ∧
    enabled (setEnable { s with _pause := true } true) = false := by
  refine ⟨rfl, ?_, rfl, rfl, rfl⟩
  simp [enabled]

end HyperHdr
